import Mathlib

/-!
Shallow embedding of the Mario expert agent core
(`src/scripts/mario_expert.py`): the agent locator, the hazard
sensors, the decision policy and the timed input actuator.

Grids are total functions from row and column to a sprite code; the
real grid is a fully populated HEIGHT x WIDTH matrix, and every read
the program performs goes through `cell`, which reproduces Python
list-indexing semantics (negative indices wrap, indices at or past
the length raise IndexError, modelled as `Except.error`).
-/

/-- Grid of sprite codes: row, column to value. -/
abbrev Grid := Nat → Nat → Nat

def WIDTH : Nat := 20

def HEIGHT : Nat := 16

/-- SpriteMap.AIR -/
def airCode : Nat := 0

/-- SpriteMap.MARIO -/
def marioCode : Nat := 1

/-- SpriteMap.GROUND = SpriteMap.COIN_BRICK = SpriteMap.USED_POWERUP_BLOCK -/
def groundCode : Nat := 10

/-- SpriteMap.MOVING_PLATFORM -/
def platformCode : Nat := 11

/-- SpriteMap.PIPE -/
def pipeCode : Nat := 14

/-- SpriteMap.GOOMBA -/
def goombaCode : Nat := 15

/-- SpriteMap.KOOPA -/
def koopaCode : Nat := 16

/-- SpriteMap.FIGHTER_FLY -/
def flyCode : Nat := 18

inductive GridErr where
  | indexError
deriving DecidableEq

/-- Python sequence indexing on a sequence of length `n`: indices in
`[0, n)` are used as is, indices in `[-n, 0)` wrap, anything else
raises IndexError. -/
def pyIndex (n : Nat) (i : Int) : Except GridErr Nat :=
  if 0 ≤ i ∧ i < (n : Int) then .ok i.toNat
  else if -(n : Int) ≤ i ∧ i < 0 then .ok (i + n).toNat
  else .error .indexError

/-- `game_area[r][c]`: the row index is resolved first, as in Python. -/
def cell (g : Grid) (r c : Int) : Except GridErr Nat :=
  match pyIndex HEIGHT r, pyIndex WIDTH c with
  | .ok ri, .ok ci => .ok (g ri ci)
  | .error e, _ => .error e
  | .ok _, .error e => .error e

/-- All grid coordinates `(y, x)` in the row-major ascending order the
locator's nested loops visit them. -/
def allCells : List (Nat × Nat) :=
  (List.range HEIGHT).flatMap (fun y => (List.range WIDTH).map (fun x => (y, x)))

/-- MarioExpert.get_mario_position: scan rows top to bottom, columns
left to right; on the first cell holding the agent sprite return
`(x + 1, y + 1)`; if no cell matches, fall through to the final loop
variables `(WIDTH - 1, HEIGHT - 1)`. -/
def get_mario_position (g : Grid) : Nat × Nat :=
  match allCells.find? (fun p => g p.1 p.2 == marioCode) with
  | some p => (p.2 + 1, p.1 + 1)
  | none => (WIDTH - 1, HEIGHT - 1)

/-- Number of cells holding the agent sprite. -/
def marioCount (g : Grid) : Nat :=
  ((List.range HEIGHT).map
    (fun y => (List.range WIDTH).countP (fun x => g y x == marioCode))).sum

/-- Scan a list of `(row, column)` positions in order; return true on
the first cell whose value is in `targets`, false after exhausting
the list, and propagate the first indexing error encountered. -/
def scanCells (g : Grid) (pts : List (Int × Int)) (targets : List Nat) :
    Except GridErr Bool :=
  match pts with
  | [] => .ok false
  | p :: rest =>
    match cell g p.1 p.2 with
    | .error e => .error e
    | .ok v => if v ∈ targets then .ok true else scanCells g rest targets

/-- Vertical offsets the skip guard keeps: the Python loop over
`range(height_check)` skips `y` when `mario_y + y >= HEIGHT` or
`mario_y - y < 0`. -/
def scanOffsets (my h : Nat) : List Nat :=
  (List.range h).filter (fun y => decide (my + y < HEIGHT) && decide (y ≤ my))

/-- Cells read by is_enemy_ahead / is_fighter_fly_ahead /
is_obstacle_ahead, in loop order: `x` outer over `range(distance)`,
`y` inner over the kept offsets, reading row `mario_y - y`, column
`mario_x + x`. -/
def skipPts (mx my d h : Nat) : List (Int × Int) :=
  (List.range d).flatMap (fun x =>
    (scanOffsets my h).map
      (fun y => (((my - y : Nat) : Int), ((mx + x : Nat) : Int))))

/-- MarioExpert.is_enemy_ahead: GOOMBA or KOOPA in the skip-guarded
window ahead of the located position. -/
def is_enemy_ahead (g : Grid) (distance_check height_check : Nat) :
    Except GridErr Bool :=
  scanCells g
    (skipPts (get_mario_position g).1 (get_mario_position g).2
      distance_check height_check)
    [goombaCode, koopaCode]

/-- MarioExpert.is_fighter_fly_ahead: FIGHTER_FLY in the same window. -/
def is_fighter_fly_ahead (g : Grid) (distance_check height_check : Nat) :
    Except GridErr Bool :=
  scanCells g
    (skipPts (get_mario_position g).1 (get_mario_position g).2
      distance_check height_check)
    [flyCode]

/-- MarioExpert.is_obstacle_ahead: USED_POWERUP_BLOCK, PIPE or
MOVING_PLATFORM in the same window. -/
def is_obstacle_ahead (g : Grid) (distance_check height_check : Nat) :
    Except GridErr Bool :=
  scanCells g
    (skipPts (get_mario_position g).1 (get_mario_position g).2
      distance_check height_check)
    [groundCode, pipeCode, platformCode]

/-- MarioExpert.is_pipe_ahead: scan row `mario_y - height_check` at
columns `mario_x + x` for `x < distance_check`, with no bounds check
of its own. -/
def is_pipe_ahead (g : Grid) (distance_check height_check : Nat) :
    Except GridErr Bool :=
  scanCells g
    ((List.range distance_check).map
      (fun x => (((get_mario_position g).2 : Int) - (height_check : Int),
        (((get_mario_position g).1 + x : Nat) : Int))))
    [pipeCode]

/-- MarioExpert.is_pit_ahead: scan the bottom row at columns
`mario_x + x` for `x < distance_check` for empty space. -/
def is_pit_ahead (g : Grid) (distance_check : Nat) : Except GridErr Bool :=
  scanCells g
    ((List.range distance_check).map
      (fun x => (((HEIGHT - 1 : Nat) : Int),
        (((get_mario_position g).1 + x : Nat) : Int))))
    [airCode]

/-- MarioActions.SPRINT_AND_RUN.value: buttons by Action index
(RIGHT = 2, SPRINT = 5). -/
def SPRINT_AND_RUN : Nat × List Nat := (1, [2, 5])

/-- MarioActions.TAP_JUMP.value (JUMP = 4). -/
def TAP_JUMP : Nat × List Nat := (1, [4])

/-- MarioActions.SHORT_JUMP.value -/
def SHORT_JUMP : Nat × List Nat := (5, [4])

/-- MarioActions.MEDIUM_JUMP.value -/
def MEDIUM_JUMP : Nat × List Nat := (10, [4])

/-- MarioActions.LONG_JUMP.value -/
def LONG_JUMP : Nat × List Nat := (15, [4])

/-- MarioExpert.choose_action: the ordered rule chain, with Python's
short-circuit `and` between the wide enemy window and the wide
obstacle window, and each sensor's indexing errors propagated from
the point it is evaluated. -/
def choose_action (g : Grid) : Except GridErr (Nat × List Nat) :=
  match is_pipe_ahead g 2 0 with
  | .error e => .error e
  | .ok true => .ok SHORT_JUMP
  | .ok false =>
  match is_fighter_fly_ahead g 2 3 with
  | .error e => .error e
  | .ok true => .ok SPRINT_AND_RUN
  | .ok false =>
  match is_enemy_ahead g 3 2 with
  | .error e => .error e
  | .ok true => .ok TAP_JUMP
  | .ok false =>
  match is_enemy_ahead g 6 6 with
  | .error e => .error e
  | .ok enemyWide =>
  match (if enemyWide then is_obstacle_ahead g 5 6 else .ok false : Except GridErr Bool) with
  | .error e => .error e
  | .ok true => .ok LONG_JUMP
  | .ok false =>
  match is_pit_ahead g 3 with
  | .error e => .error e
  | .ok true => .ok TAP_JUMP
  | .ok false =>
  match is_obstacle_ahead g 4 2 with
  | .error e => .error e
  | .ok true => .ok MEDIUM_JUMP
  | .ok false => .ok SPRINT_AND_RUN

/-- An input event sent to the emulator: a button press, a button
release (buttons by Action index), or one tick of the simulation
clock. -/
inductive Ev where
  | press : Nat → Ev
  | release : Nat → Ev
  | tick : Ev
deriving DecidableEq

/-- One iteration of MarioController.run_action's duration loop:
press every plan button, tick `act_freq` times, release every plan
button. -/
def iterBlock (act_freq : Nat) (buttons : List Nat) : List Ev :=
  buttons.map Ev.press ++ List.replicate act_freq Ev.tick ++ buttons.map Ev.release

/-- MarioController.run_action as the sequence of emulator calls it
makes: press RIGHT, press SPRINT, one tick, then the duration loop. -/
def run_action (act_freq : Nat) (action : Nat × List Nat) : List Ev :=
  [Ev.press 2, Ev.press 5, Ev.tick] ++
    (List.range action.1).flatMap (fun _ => iterBlock act_freq action.2)

/-- Ticks in a trace. -/
def countTicks (tr : List Ev) : Nat := tr.count Ev.tick

/-- Releases of button `b` in a trace. -/
def releaseCount (b : Nat) (tr : List Ev) : Nat := tr.count (Ev.release b)

/-- Buttons logically held after a trace: presses add, releases
remove, pressing an already held button and releasing an already
released one are no-ops. -/
def heldAfter (tr : List Ev) : List Nat :=
  tr.foldl
    (fun hs e =>
      match e with
      | Ev.press b => if b ∈ hs then hs else hs ++ [b]
      | Ev.release b => hs.erase b
      | Ev.tick => hs)
    []

/-- True when no tick occurs after any release in the trace, i.e.
releases happen only once all clock advancing is over. -/
def ticksBeforeReleases : List Ev → Bool → Bool
  | [], _ => true
  | Ev.release _ :: rest, _ => ticksBeforeReleases rest true
  | Ev.tick :: rest, seen => if seen then false else ticksBeforeReleases rest seen
  | Ev.press _ :: rest, seen => ticksBeforeReleases rest seen

/-- Releases come only after all ticks. -/
def releasesOnlyAfterTicks (tr : List Ev) : Bool := ticksBeforeReleases tr false

/-- Modelled from the spec: the agent position as the spec's
AgentLocator describes it, the coordinates of the first cell whose
value equals the agent's sprite code (no offset). -/
def spec_agent_pos (g : Grid) : Nat × Nat :=
  match allCells.find? (fun p => g p.1 p.2 == marioCode) with
  | some p => (p.2, p.1)
  | none => (WIDTH - 1, HEIGHT - 1)

/-- Modelled from the spec: a walking enemy inside the spec's
SensorWindow, the rectangle of columns `[agentX, agentX + distance)`
and rows `[agentY - height, agentY + height]`, clipped to grid
bounds. -/
def spec_enemy_in_window (g : Grid) (d h : Nat) : Bool :=
  (List.range d).any (fun dx =>
    (List.range (2 * h + 1)).any (fun i =>
      let r : Int := ((spec_agent_pos g).2 : Int) - (h : Int) + (i : Int)
      let c : Int := ((spec_agent_pos g).1 : Int) + (dx : Int)
      decide (0 ≤ r) && decide (r < (HEIGHT : Int)) &&
        decide (0 ≤ c) && decide (c < (WIDTH : Int)) &&
        (g r.toNat c.toNat == goombaCode || g r.toNat c.toNat == koopaCode)))

/-- The all empty grid. -/
def emptyGrid : Grid := fun _ _ => 0

/-- Overwrite one cell of a grid. -/
def setCell (g : Grid) (r c v : Nat) : Grid :=
  fun r' c' => if r' == r && c' == c then v else g r' c'

theorem mem_allCells (p : Nat × Nat) :
    p ∈ allCells ↔ p.1 < HEIGHT ∧ p.2 < WIDTH := by
  cases p with
  | mk y x =>
    simp [allCells, List.mem_flatMap, List.mem_map, List.mem_range]

theorem get_mario_position_of_unique_cell (g : Grid) (x y : Nat)
    (hy : y < HEIGHT) (hx : x < WIDTH) (hm : g y x = marioCode)
    (huniq : ∀ y' < HEIGHT, ∀ x' < WIDTH, g y' x' = marioCode → y' = y ∧ x' = x) :
    get_mario_position g = (x + 1, y + 1) := by
  have hmem : (y, x) ∈ allCells := (mem_allCells (y, x)).mpr ⟨hy, hx⟩
  unfold get_mario_position
  cases hfind : allCells.find? (fun p => g p.1 p.2 == marioCode) with
  | none =>
    have := List.find?_eq_none.mp hfind (y, x) hmem
    simp [hm] at this
  | some p =>
    have hp := List.find?_some hfind
    have hpm : p ∈ allCells := List.mem_of_find?_eq_some hfind
    have hb := (mem_allCells p).mp hpm
    have heq : g p.1 p.2 = marioCode := by
      simpa using hp
    have := huniq p.1 hb.1 p.2 hb.2 heq
    simp [this.1, this.2]

theorem cell_nat (g : Grid) (r c : Nat) (hr : r < HEIGHT) (hc : c < WIDTH) :
    cell g ((r : Nat) : Int) ((c : Nat) : Int) = .ok (g r c) := by
  unfold cell pyIndex
  rw [if_pos ⟨Int.natCast_nonneg r, by exact_mod_cast hr⟩,
    if_pos ⟨Int.natCast_nonneg c, by exact_mod_cast hc⟩]
  simp [Int.toNat_natCast]

theorem scanCells_cons_ok (g : Grid) (ts : List Nat) (p : Int × Int)
    (rest : List (Int × Int)) (v : Nat) (hv : cell g p.1 p.2 = .ok v) :
    scanCells g (p :: rest) ts =
      if v ∈ ts then .ok true else scanCells g rest ts := by
  simp only [scanCells]
  rw [hv]

theorem scanCells_ok_of_bounds (g : Grid) (ts : List Nat) :
    ∀ pts : List (Int × Int),
      (∀ p ∈ pts, ∃ v, cell g p.1 p.2 = .ok v) →
      ∃ b, scanCells g pts ts = .ok b := by
  intro pts
  induction pts with
  | nil => intro _; exact ⟨false, rfl⟩
  | cons p rest ih =>
    intro h
    obtain ⟨v, hv⟩ := h p (List.mem_cons_self p rest)
    rw [scanCells_cons_ok g ts p rest v hv]
    by_cases hmem : v ∈ ts
    · exact ⟨true, by rw [if_pos hmem]⟩
    · rw [if_neg hmem]
      exact ih (fun q hq => h q (List.mem_cons_of_mem p hq))

theorem scanCells_true_iff (g : Grid) (ts : List Nat) :
    ∀ pts : List (Int × Int),
      (∀ p ∈ pts, ∃ v, cell g p.1 p.2 = .ok v) →
      (scanCells g pts ts = .ok true ↔
        ∃ p ∈ pts, ∃ v, cell g p.1 p.2 = .ok v ∧ v ∈ ts) := by
  intro pts
  induction pts with
  | nil => intro _; simp [scanCells]
  | cons p rest ih =>
    intro h
    obtain ⟨v, hv⟩ := h p (List.mem_cons_self p rest)
    rw [scanCells_cons_ok g ts p rest v hv]
    by_cases hmem : v ∈ ts
    · rw [if_pos hmem]
      simp only [eq_self_iff_true, true_iff]
      exact ⟨p, List.mem_cons_self p rest, v, hv, hmem⟩
    · rw [if_neg hmem]
      rw [ih (fun q hq => h q (List.mem_cons_of_mem p hq))]
      constructor
      · rintro ⟨q, hq, w, hw, hwts⟩
        exact ⟨q, List.mem_cons_of_mem p hq, w, hw, hwts⟩
      · rintro ⟨q, hq, w, hw, hwts⟩
        rcases List.mem_cons.mp hq with hqp | hqr
        · subst hqp
          rw [hv] at hw
          cases hw
          exact absurd hwts hmem
        · exact ⟨q, hqr, w, hw, hwts⟩

theorem mem_scanOffsets (my h y : Nat) :
    y ∈ scanOffsets my h ↔ y < h ∧ my + y < HEIGHT ∧ y ≤ my := by
  simp [scanOffsets, List.mem_filter, List.mem_range, and_assoc]

theorem mem_skipPts (mx my d h : Nat) (p : Int × Int) :
    p ∈ skipPts mx my d h ↔
      ∃ x, x < d ∧ ∃ y, y < h ∧ my + y < HEIGHT ∧ y ≤ my ∧
        p = (((my - y : Nat) : Int), ((mx + x : Nat) : Int)) := by
  simp only [skipPts, List.mem_flatMap, List.mem_map, List.mem_range]
  constructor
  · rintro ⟨x, hx, y, hy, hp⟩
    have hy' := (mem_scanOffsets my h y).mp hy
    exact ⟨x, hx, y, hy'.1, hy'.2.1, hy'.2.2, hp.symm⟩
  · rintro ⟨x, hx, y, hy1, hy2, hy3, hp⟩
    exact ⟨x, hx, y, (mem_scanOffsets my h y).mpr ⟨hy1, hy2, hy3⟩, hp.symm⟩

theorem skipPts_cell_ok (g : Grid) (mx my d h : Nat) (hcol : mx + d ≤ WIDTH) :
    ∀ p ∈ skipPts mx my d h, ∃ v, cell g p.1 p.2 = .ok v := by
  intro p hp
  obtain ⟨x, hx, y, hy1, hy2, hy3, hpe⟩ := (mem_skipPts mx my d h p).mp hp
  subst hpe
  refine ⟨g (my - y) (mx + x), cell_nat g (my - y) (mx + x) ?_ ?_⟩
  · omega
  · omega

theorem skipScan_true_iff (g : Grid) (ts : List Nat) (mx my d h : Nat)
    (hcol : mx + d ≤ WIDTH) :
    scanCells g (skipPts mx my d h) ts = .ok true ↔
      ∃ x, x < d ∧ ∃ y, y < h ∧ my + y < HEIGHT ∧ y ≤ my ∧
        g (my - y) (mx + x) ∈ ts := by
  rw [scanCells_true_iff g ts _ (skipPts_cell_ok g mx my d h hcol)]
  constructor
  · rintro ⟨p, hp, w, hw, hwts⟩
    obtain ⟨x, hx, y, hy1, hy2, hy3, hpe⟩ := (mem_skipPts mx my d h p).mp hp
    subst hpe
    rw [cell_nat g (my - y) (mx + x) (by omega) (by omega)] at hw
    cases hw
    exact ⟨x, hx, y, hy1, hy2, hy3, hwts⟩
  · rintro ⟨x, hx, y, hy1, hy2, hy3, hwts⟩
    refine ⟨(((my - y : Nat) : Int), ((mx + x : Nat) : Int)),
      (mem_skipPts mx my d h _).mpr ⟨x, hx, y, hy1, hy2, hy3, rfl⟩,
      g (my - y) (mx + x),
      cell_nat g (my - y) (mx + x) (by omega) (by omega), hwts⟩

theorem ok_false_of_not_true (s : Except GridErr Bool)
    (hex : ∃ b, s = .ok b) (hnt : s ≠ .ok true) : s = .ok false := by
  obtain ⟨b, hb⟩ := hex
  cases b
  · exact hb
  · exact absurd hb hnt

def gC1 : Grid := setCell emptyGrid 0 0 marioCode

/-- C1 counterexample: a grid whose unique agent cell is (0, 0); the
locator returns (1, 1), not that cell's coordinates. -/
theorem get_mario_position_offset_cex :
    marioCount gC1 = 1 ∧ gC1 0 0 = marioCode ∧
      get_mario_position gC1 ≠ (0, 0) ∧ get_mario_position gC1 = (1, 1) :=
  ⟨rfl, rfl, by decide, rfl⟩

def gW1 : Grid := setCell emptyGrid 2 3 marioCode

/-- C1 witness. -/
theorem get_mario_position_of_unique_cell_inst :
    gW1 2 3 = marioCode ∧ get_mario_position gW1 = (4, 3) :=
  ⟨rfl, get_mario_position_of_unique_cell gW1 3 2 (by decide) (by decide) rfl
    (by decide)⟩

/-- C2: on a grid with zero agent cells the locator falls through to
the stale loop variables and returns (WIDTH-1, HEIGHT-1). -/
theorem get_mario_position_empty_grid_stale :
    marioCount emptyGrid = 0 ∧
      get_mario_position emptyGrid = (WIDTH - 1, HEIGHT - 1) :=
  ⟨rfl, rfl⟩

/-- C3 counterexample: duration-2 tap-jump plan with act_freq 1: the
trace ticks 3 times, not 2, and a release occurs before the last
tick. -/
theorem run_action_release_between_iterations_cex :
    countTicks (run_action 1 (2, [4])) ≠ 2 ∧
      releasesOnlyAfterTicks (run_action 1 (2, [4])) = false :=
  ⟨by decide, by decide⟩

/-- C4: after a full cycle the RIGHT and SPRINT buttons pressed at
the start of run_action are still held. -/
theorem run_action_leaves_maintenance_buttons_held :
    heldAfter (run_action 1 (1, [4])) = [2, 5] ∧
      countTicks (run_action 1 (1, [4])) = 2 :=
  ⟨rfl, rfl⟩

theorem count_flatMap_const (e : Ev) (L : List Ev) (d : Nat) :
    ((List.range d).flatMap (fun _ => L)).count e = d * L.count e := by
  induction d with
  | zero => simp
  | succ n ih =>
    rw [List.range_succ, List.flatMap_append, List.count_append, ih]
    simp [Nat.succ_mul]

theorem count_tick_map_press (bs : List Nat) :
    (bs.map Ev.press).count Ev.tick = 0 := by
  rw [List.count_eq_zero]
  intro hmem
  obtain ⟨b, _, hb⟩ := List.mem_map.mp hmem
  cases hb

theorem count_tick_map_release (bs : List Nat) :
    (bs.map Ev.release).count Ev.tick = 0 := by
  rw [List.count_eq_zero]
  intro hmem
  obtain ⟨b, _, hb⟩ := List.mem_map.mp hmem
  cases hb

theorem count_release_map_press (b : Nat) (bs : List Nat) :
    (bs.map Ev.press).count (Ev.release b) = 0 := by
  rw [List.count_eq_zero]
  intro hmem
  obtain ⟨c, _, hc⟩ := List.mem_map.mp hmem
  cases hc

theorem count_release_map_release (b : Nat) (bs : List Nat) :
    (bs.map Ev.release).count (Ev.release b) = bs.count b :=
  List.count_map_of_injective bs Ev.release (fun a c h => by cases h; rfl) b

theorem count_release_replicate_tick (b : Nat) (f : Nat) :
    (List.replicate f Ev.tick).count (Ev.release b) = 0 := by
  rw [List.count_eq_zero]
  intro hmem
  have := List.eq_of_mem_replicate hmem
  cases this

/-- C3 amended: the trace of run_action advances the clock by
1 + duration * act_freq units (one maintenance tick before the loop,
then act_freq per iteration), and releases every plan button once per
iteration — d * (multiplicity in the plan) releases in total, not a
single release after the loop. -/
theorem run_action_tick_and_release_counts (f d : Nat) (bs : List Nat) :
    countTicks (run_action f (d, bs)) = 1 + d * f ∧
      ∀ b, releaseCount b (run_action f (d, bs)) = d * bs.count b := by
  constructor
  · unfold countTicks run_action
    rw [List.count_append, count_flatMap_const]
    unfold iterBlock
    rw [List.count_append, List.count_append, count_tick_map_press,
      count_tick_map_release, List.count_replicate_self]
    simp
  · intro b
    unfold releaseCount run_action
    rw [List.count_append, count_flatMap_const]
    unfold iterBlock
    rw [List.count_append, List.count_append, count_release_map_press,
      count_release_map_release, count_release_replicate_tick]
    simp [List.count_cons, List.count_nil]

theorem pipe_pts_cell_ok (g : Grid) (mx my hc d : Nat)
    (hrow1 : hc ≤ my) (hrow2 : my - hc < HEIGHT) (hcol : mx + d ≤ WIDTH) :
    ∀ p ∈ (List.range d).map
        (fun x => (((my : Int) - (hc : Int)), ((mx + x : Nat) : Int))),
      ∃ v, cell g p.1 p.2 = .ok v := by
  intro p hp
  obtain ⟨x, hx, hpe⟩ := List.mem_map.mp hp
  rw [List.mem_range] at hx
  subst hpe
  have hr : ((my : Int) - (hc : Int)) = ((my - hc : Nat) : Int) := by omega
  rw [hr]
  exact ⟨g (my - hc) (mx + x),
    cell_nat g (my - hc) (mx + x) hrow2 (by omega)⟩

theorem pipe_scan_true_iff (g : Grid) (mx my hc d : Nat)
    (hrow1 : hc ≤ my) (hrow2 : my - hc < HEIGHT) (hcol : mx + d ≤ WIDTH) :
    scanCells g
        ((List.range d).map
          (fun x => (((my : Int) - (hc : Int)), ((mx + x : Nat) : Int))))
        [pipeCode] = .ok true ↔
      ∃ x, x < d ∧ g (my - hc) (mx + x) = pipeCode := by
  rw [scanCells_true_iff g [pipeCode] _
    (pipe_pts_cell_ok g mx my hc d hrow1 hrow2 hcol)]
  have hr : ((my : Int) - (hc : Int)) = ((my - hc : Nat) : Int) := by omega
  constructor
  · rintro ⟨p, hp, w, hw, hwts⟩
    obtain ⟨x, hx, hpe⟩ := List.mem_map.mp hp
    rw [List.mem_range] at hx
    subst hpe
    rw [hr, cell_nat g (my - hc) (mx + x) hrow2 (by omega)] at hw
    cases hw
    exact ⟨x, hx, by simpa using hwts⟩
  · rintro ⟨x, hx, hpc⟩
    refine ⟨(((my : Int) - (hc : Int)), ((mx + x : Nat) : Int)),
      List.mem_map.mpr ⟨x, List.mem_range.mpr hx, rfl⟩,
      g (my - hc) (mx + x), ?_, by simpa using hpc⟩
    rw [hr]
    exact cell_nat g (my - hc) (mx + x) hrow2 (by omega)

theorem pit_pts_cell_ok (g : Grid) (mx d : Nat) (hcol : mx + d ≤ WIDTH) :
    ∀ p ∈ (List.range d).map
        (fun x => (((HEIGHT - 1 : Nat) : Int), ((mx + x : Nat) : Int))),
      ∃ v, cell g p.1 p.2 = .ok v := by
  intro p hp
  obtain ⟨x, hx, hpe⟩ := List.mem_map.mp hp
  rw [List.mem_range] at hx
  subst hpe
  exact ⟨g (HEIGHT - 1) (mx + x),
    cell_nat g (HEIGHT - 1) (mx + x) (by decide) (by omega)⟩

/-- C5 amended: the three row-guarded sensors and the pit sensor
evaluate without index error whenever the column window fits inside
the grid, and the pipe sensor does so when additionally its
unguarded row index is in range; none of them clips columns, so this
hypothesis is needed (see the accompanying counterexample). -/
theorem sensors_safe_when_window_fits (g : Grid) (d h mx my : Nat)
    (hm : get_mario_position g = (mx, my)) (hcol : mx + d ≤ WIDTH) :
    (∃ b, is_enemy_ahead g d h = .ok b) ∧
      (∃ b, is_fighter_fly_ahead g d h = .ok b) ∧
      (∃ b, is_obstacle_ahead g d h = .ok b) ∧
      (∃ b, is_pit_ahead g d = .ok b) ∧
      (my < HEIGHT → ∃ b, is_pipe_ahead g d 0 = .ok b) := by
  refine ⟨?_, ?_, ?_, ?_, ?_⟩
  · simp only [is_enemy_ahead, hm]
    exact scanCells_ok_of_bounds g _ _ (skipPts_cell_ok g mx my d h hcol)
  · simp only [is_fighter_fly_ahead, hm]
    exact scanCells_ok_of_bounds g _ _ (skipPts_cell_ok g mx my d h hcol)
  · simp only [is_obstacle_ahead, hm]
    exact scanCells_ok_of_bounds g _ _ (skipPts_cell_ok g mx my d h hcol)
  · simp only [is_pit_ahead, hm]
    exact scanCells_ok_of_bounds g _ _ (pit_pts_cell_ok g mx d hcol)
  · intro hmy
    simp only [is_pipe_ahead, hm]
    exact scanCells_ok_of_bounds g _ _
      (pipe_pts_cell_ok g mx my 0 d (Nat.zero_le my) (by omega) hcol)

def gC5 : Grid := setCell emptyGrid 5 19 marioCode

/-- C5 counterexample: with the agent in the rightmost column the
located column is WIDTH, and the pipe, pit and enemy sensors all
raise an index error instead of clipping the column window. -/
theorem sensors_index_error_cex :
    get_mario_position gC5 = (20, 6) ∧
      is_pipe_ahead gC5 2 0 = .error .indexError ∧
      is_pit_ahead gC5 2 = .error .indexError ∧
      is_enemy_ahead gC5 2 2 = .error .indexError :=
  ⟨rfl, rfl, rfl, rfl⟩

def gW5 : Grid := setCell emptyGrid 5 5 marioCode

/-- C5 witness. -/
theorem sensors_safe_when_window_fits_inst :
    get_mario_position gW5 = (6, 6) ∧
      ((∃ b, is_enemy_ahead gW5 6 6 = .ok b) ∧
        (∃ b, is_fighter_fly_ahead gW5 6 6 = .ok b) ∧
        (∃ b, is_obstacle_ahead gW5 6 6 = .ok b) ∧
        (∃ b, is_pit_ahead gW5 6 = .ok b) ∧
        (6 < HEIGHT → ∃ b, is_pipe_ahead gW5 6 0 = .ok b)) :=
  ⟨rfl, sensors_safe_when_window_fits gW5 6 6 6 6 rfl (by decide)⟩

/-- C6: whenever the three higher-priority guards are false and both
the wide enemy window and the wide obstacle window report true, the
policy returns the long-jump plan. -/
theorem choose_action_long_jump_priority (g : Grid)
    (h1 : is_pipe_ahead g 2 0 = .ok false)
    (h2 : is_fighter_fly_ahead g 2 3 = .ok false)
    (h3 : is_enemy_ahead g 3 2 = .ok false)
    (h4 : is_enemy_ahead g 6 6 = .ok true)
    (h5 : is_obstacle_ahead g 5 6 = .ok true) :
    choose_action g = .ok LONG_JUMP := by
  unfold choose_action
  rw [h1, h2, h3, h4, h5]
  rfl

def gW6 : Grid :=
  setCell (setCell (setCell emptyGrid 5 5 marioCode) 2 11 goombaCode) 1 10
    platformCode

/-- C6 witness. -/
theorem choose_action_long_jump_priority_inst :
    is_pipe_ahead gW6 2 0 = .ok false ∧
      is_fighter_fly_ahead gW6 2 3 = .ok false ∧
      is_enemy_ahead gW6 3 2 = .ok false ∧
      is_enemy_ahead gW6 6 6 = .ok true ∧
      is_obstacle_ahead gW6 5 6 = .ok true ∧
      choose_action gW6 = .ok LONG_JUMP :=
  ⟨rfl, rfl, rfl, rfl, rfl,
    choose_action_long_jump_priority gW6 rfl rfl rfl rfl rfl⟩

def gC7 : Grid := setCell (setCell emptyGrid 5 5 marioCode) 5 6 pipeCode

/-- C7 counterexample: agent cell (5, 5), pipe sprite at
(agentX + 1, agentY) = column 6, row 5; PipeAhead with distance 2
returns false because it reads row mario_y = agentY + 1, not the
agent's row. -/
theorem pipe_ahead_agent_row_cex :
    gC7 5 5 = marioCode ∧ gC7 5 6 = pipeCode ∧
      is_pipe_ahead gC7 2 0 = .ok false :=
  ⟨rfl, rfl, rfl⟩

/-- C7 amended: with the agent cell at (ax, ay), PipeAhead with
distance 2 reads row ay + 1 at columns ax + 1 and ax + 2: a pipe at
(ax + 1, ay + 1) makes it true, and a grid with no pipe in those two
cells (for example the pipe moved to column ax + 3) makes it
false. -/
theorem pipe_ahead_row_below_window (g g2 : Grid) (ax ay : Nat)
    (hm1 : get_mario_position g = (ax + 1, ay + 1))
    (hm2 : get_mario_position g2 = (ax + 1, ay + 1))
    (hrow : ay + 1 < HEIGHT) (hcol : ax + 2 < WIDTH)
    (hp : g (ay + 1) (ax + 1) = pipeCode)
    (hn1 : g2 (ay + 1) (ax + 1) ≠ pipeCode)
    (hn2 : g2 (ay + 1) (ax + 2) ≠ pipeCode) :
    is_pipe_ahead g 2 0 = .ok true ∧ is_pipe_ahead g2 2 0 = .ok false := by
  constructor
  · simp only [is_pipe_ahead, hm1]
    rw [pipe_scan_true_iff g (ax + 1) (ay + 1) 0 2 (Nat.zero_le _) (by omega)
      (by omega)]
    exact ⟨0, by omega, by simpa using hp⟩
  · apply ok_false_of_not_true
    · simp only [is_pipe_ahead, hm2]
      exact scanCells_ok_of_bounds g2 _ _
        (pipe_pts_cell_ok g2 (ax + 1) (ay + 1) 0 2 (Nat.zero_le _) (by omega)
          (by omega))
    · simp only [is_pipe_ahead, hm2]
      rw [Ne, pipe_scan_true_iff g2 (ax + 1) (ay + 1) 0 2 (Nat.zero_le _)
        (by omega) (by omega)]
      rintro ⟨x, hx, hpc⟩
      interval_cases x
      · exact hn1 (by simpa using hpc)
      · exact hn2 (by simpa using hpc)

def gW7a : Grid := setCell (setCell emptyGrid 5 5 marioCode) 6 6 pipeCode

def gW7b : Grid := setCell (setCell emptyGrid 5 5 marioCode) 6 8 pipeCode

/-- C7 witness. -/
theorem pipe_ahead_row_below_window_inst :
    is_pipe_ahead gW7a 2 0 = .ok true ∧ is_pipe_ahead gW7b 2 0 = .ok false :=
  pipe_ahead_row_below_window gW7a gW7b 5 5 rfl rfl (by decide) (by decide)
    rfl (by decide) (by decide)

def gC8 : Grid := setCell (setCell emptyGrid 5 5 marioCode) 7 6 goombaCode

/-- C8 counterexample: agent cell (5, 5) and a goomba two rows below
it at (6, 7), inside the spec's symmetric window for distance 3 and
height 3; the sensor scans only row mario_y and rows above it, so it
returns false. -/
theorem enemy_ahead_below_not_scanned_cex :
    spec_enemy_in_window gC8 3 3 = true ∧
      is_enemy_ahead gC8 3 3 = .ok false :=
  ⟨rfl, rfl⟩

/-- C8 amended: the sensor reads, for each column offset x less than
distance, the rows mario_y - y for y less than height — the located
row (one below the agent cell) and rows above it, never rows further
below — skipping any offset with mario_y + y at or past HEIGHT or
y past mario_y; it returns true exactly when a goomba or koopa lies
in one of those scanned cells. -/
theorem enemy_ahead_characterization (g : Grid) (d h mx my : Nat)
    (hm : get_mario_position g = (mx, my)) (hcol : mx + d ≤ WIDTH) :
    is_enemy_ahead g d h = .ok true ↔
      ∃ x, x < d ∧ ∃ y, y < h ∧ my + y < HEIGHT ∧ y ≤ my ∧
        g (my - y) (mx + x) ∈ [goombaCode, koopaCode] := by
  simp only [is_enemy_ahead, hm]
  exact skipScan_true_iff g [goombaCode, koopaCode] mx my d h hcol

/-- C8 witness. -/
theorem enemy_ahead_characterization_inst :
    is_enemy_ahead gC8 3 3 = .ok true ↔
      ∃ x, x < 3 ∧ ∃ y, y < 3 ∧ 6 + y < HEIGHT ∧ y ≤ 6 ∧
        gC8 (6 - y) (6 + x) ∈ [goombaCode, koopaCode] :=
  enemy_ahead_characterization gC8 3 3 6 6 rfl (by decide)

/-- C9: the policy is a pure function of the grid, and when every
guard it evaluates is false it returns the default sprint-and-run
plan. -/
theorem choose_action_deterministic_default :
    (∀ g1 g2 : Grid, g1 = g2 → choose_action g1 = choose_action g2) ∧
      (∀ g : Grid,
        is_pipe_ahead g 2 0 = .ok false →
        is_fighter_fly_ahead g 2 3 = .ok false →
        is_enemy_ahead g 3 2 = .ok false →
        is_enemy_ahead g 6 6 = .ok false →
        is_pit_ahead g 3 = .ok false →
        is_obstacle_ahead g 4 2 = .ok false →
        choose_action g = .ok SPRINT_AND_RUN) := by
  constructor
  · intro g1 g2 hg
    rw [hg]
  · intro g h1 h2 h3 h4 h5 h6
    unfold choose_action
    rw [h1, h2, h3, h4, h5, h6]
    rfl

def gW9 : Grid :=
  fun r c => if r == 15 then groundCode
    else if r == 5 && c == 5 then marioCode else 0

/-- C9 witness. -/
theorem choose_action_deterministic_default_inst :
    is_pipe_ahead gW9 2 0 = .ok false ∧
      is_fighter_fly_ahead gW9 2 3 = .ok false ∧
      is_enemy_ahead gW9 3 2 = .ok false ∧
      is_enemy_ahead gW9 6 6 = .ok false ∧
      is_pit_ahead gW9 3 = .ok false ∧
      is_obstacle_ahead gW9 4 2 = .ok false ∧
      choose_action gW9 = .ok SPRINT_AND_RUN :=
  ⟨rfl, rfl, rfl, rfl, rfl, rfl,
    choose_action_deterministic_default.2 gW9 rfl rfl rfl rfl rfl rfl⟩

def gC10 : Grid := setCell (setCell emptyGrid 10 3 marioCode) 7 4 goombaCode

/-- C10 counterexample: the agent cell (3, 10) is within height - 1
= 5 rows of the bottom edge, the goomba sits at (4, 7), an in-bounds
row above the agent inside the distance-1 height-6 window, and the
sensor DOES scan it and detect it, because only offsets y with
mario_y + y at or past HEIGHT are skipped. -/
theorem skip_guard_above_rows_scanned_cex :
    get_mario_position gC10 = (4, 11) ∧ gC10 7 4 = goombaCode ∧
      is_enemy_ahead gC10 1 6 = .ok true :=
  ⟨rfl, rfl, rfl⟩

/-- C10 amended: in all three row-guarded sensors an offset y is
skipped exactly when mario_y + y reaches HEIGHT (or y exceeds
mario_y), even though only row mario_y - y is read; sprites at
skipped offsets are never detected, while sprites at smaller offsets
still are. -/
theorem skip_guard_characterization (g : Grid) (d h mx my : Nat)
    (hm : get_mario_position g = (mx, my)) (hcol : mx + d ≤ WIDTH) :
    (is_enemy_ahead g d h = .ok true ↔
      ∃ x, x < d ∧ ∃ y, y < h ∧ my + y < HEIGHT ∧ y ≤ my ∧
        g (my - y) (mx + x) ∈ [goombaCode, koopaCode]) ∧
    (is_fighter_fly_ahead g d h = .ok true ↔
      ∃ x, x < d ∧ ∃ y, y < h ∧ my + y < HEIGHT ∧ y ≤ my ∧
        g (my - y) (mx + x) ∈ [flyCode]) ∧
    (is_obstacle_ahead g d h = .ok true ↔
      ∃ x, x < d ∧ ∃ y, y < h ∧ my + y < HEIGHT ∧ y ≤ my ∧
        g (my - y) (mx + x) ∈ [groundCode, pipeCode, platformCode]) := by
  refine ⟨?_, ?_, ?_⟩
  · simp only [is_enemy_ahead, hm]
    exact skipScan_true_iff g [goombaCode, koopaCode] mx my d h hcol
  · simp only [is_fighter_fly_ahead, hm]
    exact skipScan_true_iff g [flyCode] mx my d h hcol
  · simp only [is_obstacle_ahead, hm]
    exact skipScan_true_iff g [groundCode, pipeCode, platformCode] mx my d h hcol

/-- C10 witness. -/
theorem skip_guard_characterization_inst :
    (is_enemy_ahead gC10 1 6 = .ok true ↔
      ∃ x, x < 1 ∧ ∃ y, y < 6 ∧ 11 + y < HEIGHT ∧ y ≤ 11 ∧
        gC10 (11 - y) (4 + x) ∈ [goombaCode, koopaCode]) ∧
    (is_fighter_fly_ahead gC10 1 6 = .ok true ↔
      ∃ x, x < 1 ∧ ∃ y, y < 6 ∧ 11 + y < HEIGHT ∧ y ≤ 11 ∧
        gC10 (11 - y) (4 + x) ∈ [flyCode]) ∧
    (is_obstacle_ahead gC10 1 6 = .ok true ↔
      ∃ x, x < 1 ∧ ∃ y, y < 6 ∧ 11 + y < HEIGHT ∧ y ≤ 11 ∧
        gC10 (11 - y) (4 + x) ∈ [groundCode, pipeCode, platformCode]) :=
  skip_guard_characterization gC10 1 6 4 11 rfl (by decide)
